import Mathlib

/-!
Verification of the sling load orchestrator against its specification.

The definitions below are a shallow embedding of the Go sources:
  - core/sling/task_run_write.go (WriteToDb)
  - core/sling/config.go (mode constants, DetermineType validation)
  - core/sling/task_run_read.go (ReadFromDB select/exclude handling)
  - core/dbio/database/database_snowflake.go (GenerateUpsertSQL merge shape)

WriteToDb drives a database connection with side effects; the embedding
makes the connection an oracle (a record holding the outcome of every
store operation the function may perform) and makes the function return,
besides the (count, error) pair of the Go code, the ordered list of store
operations it performed.  Error values are modelled as Option String; the
message strings are abbreviated tags of the Go messages.
-/

namespace Sling


/-- Load mode constants, from config.go. -/
def TruncateMode : String := "truncate"

/-- config.go: FullRefreshMode Mode = "full-refresh". -/
def FullRefreshMode : String := "full-refresh"

/-- config.go: IncrementalMode Mode = "incremental". -/
def IncrementalMode : String := "incremental"

/-- config.go: SnapshotMode Mode = "snapshot". -/
def SnapshotMode : String := "snapshot"

/-- config.go: BackfillMode Mode = "backfill". -/
def BackfillMode : String := "backfill"

/-- The unused swap branch of WriteToDb dispatches on this literal mode. -/
def SwapModeLiteral : String := "drop (need to optimize temp table in place)"

/-- A parsed table identifier (schema-qualified name), the part of
database.Table that WriteToDb manipulates. -/
structure Table where
  schema : String
  name : String
deriving Repr, DecidableEq

/-- Table.FullName: schema-qualified rendering of the table name. -/
def Table.fullName (t : Table) : String :=
  if t.schema = "" then t.name else t.schema ++ "." ++ t.name

/-- sub is a contiguous run of l. -/
def charsContain (sub : List Char) : List Char → Bool
  | [] => sub.isEmpty
  | c :: cs => sub.isPrefixOf (c :: cs) || charsContain sub cs

/-- strings.Contains from the Go standard library: sub occurs in s. -/
def strContains (s sub : String) : Bool :=
  charsContain sub.data s.data

/-- Take the first n characters (the Go slice name[:24]). -/
def strTake (s : String) (n : Nat) : String :=
  String.mk (s.data.take n)

/-- strings.ToUpper, character by character. -/
def strToUpper (s : String) : String :=
  String.mk (s.data.map Char.toUpper)

/-- strings.ToLower, character by character. -/
def strToLower (s : String) : String :=
  String.mk (s.data.map Char.toLower)

/-- Split a character list on a separator character. -/
def splitOnChar (sep : Char) : List Char → List (List Char)
  | [] => [[]]
  | c :: cs =>
    if c = sep then [] :: splitOnChar sep cs
    else
      match splitOnChar sep cs with
      | [] => [[c]]
      | w :: ws => (c :: w) :: ws

/-- strings.Split(s, comma): the comma-separated parts of s. -/
def splitComma (s : String) : List String :=
  (splitOnChar (Char.ofNat 44) s.data).map fun cs => String.mk cs

/-- strings.HasPrefix(s, dash): the select-exclusion marker test. -/
def startsWithDash (s : String) : Bool :=
  match s.data with
  | [] => false
  | c :: _ => c == Char.ofNat 45

/-- Remove every occurrence of the qualifier-quote character
(strings.ReplaceAll(s, q, empty) for the one-character quote q). -/
def removeChar (q : Char) (s : String) : String :=
  String.mk (s.data.filter fun c => ! (c == q))

/-- WriteToDb lines 105-130: derive the temp (staging) table from the
parsed target table.  upper is tgtConn.GetType().DBNameUpperCase(),
isOracle whether the target store is Oracle, rand2 the two characters
produced by g.RandString (randomness supplied as an input). -/
def deriveTmpTable (parsed : Table) (upper : Bool) (isOracle : Bool) (rand2 : String) : Table :=
  let name0 := if isOracle ∧ parsed.name.length > 24 then strTake parsed.name 24 else parsed.name
  let suffix0 := if upper then "_TMP" else "_tmp"
  let suffix :=
    if isOracle then
      suffix0 ++ (if upper then strToUpper rand2 else strToLower rand2)
    else suffix0
  { parsed with name := name0 ++ suffix }

/-- The store operations WriteToDb can perform, in the order performed.
beginTx/commitTx carry whether the call occurs in the final-table phase
(the second Begin, line 329) rather than the temp-table phase (line 187). -/
inductive Ev where
  | dropTable (t : String)
  | pauseStreams
  | createTable (t : String)
  | registerCleanup (t : String)
  | beginTx (finalPhase : Bool)
  | commitTx (finalPhase : Bool)
  | rollbackTx
  | bulkImport (t : String)
  | getCount (t : String)
  | execSQL (sql : String)
  | compareChecksums (t : String)
  | addColumns (t : String)
  | optimizeTable (t : String)
  | swapTable (a : String) (b : String)
  | truncateTable (t : String)
  | insertFromTemp (tmp : String) (tgt : String)
  | upsert (tmp : String) (tgt : String) (pk : List String)
deriving Repr, DecidableEq

/-- The slice of Config that WriteToDb reads. -/
structure WCfg where
  mode : String
  targetObject : String
  tableTmp : String
  tableDDL : String
  preSQL : String
  postSQL : String
  addNewColumns : Bool
  adjustColumnType : Bool
  primaryKey : List String
  srcIsFile : Bool
deriving Repr, DecidableEq

/-- Environment variables WriteToDb consults.  errorOnChecksumFailure is
whether ERROR_ON_CHECKSUM_FAILURE is non-empty (strict checksum mode). -/
structure WEnv where
  allowEmptyTables : Bool
  errorOnChecksumFailure : Bool
deriving Repr, DecidableEq

/-- The slice of the Dataflow that WriteToDb reads: column names, the
buffered sample size, the aggregate count, and df.Err(). -/
structure WDf where
  columns : List String
  bufferLen : Nat
  count : Nat
  dfErr : Option String
deriving Repr, DecidableEq

/-- The target connection as an oracle: store-type facts and the outcome
of every operation WriteToDb may perform, supplied as inputs. -/
structure WConn where
  upper : Bool
  isOracle : Bool
  rand2 : String
  parsedTarget : Option Table
  dropTmpOk : Bool
  pauseOk : Bool
  createTmpOk : Bool
  begin1Ok : Bool
  bulkImportRes : Option Nat
  tmpCount : Nat
  preSQLTextOk : Bool
  preFormatOk : Bool
  preExecOk : Bool
  checksumOk : Bool
  begin2Ok : Bool
  dropFinalOk : Bool
  createFinalRes : Option Bool
  parseFinal2Ok : Bool
  addMissingRes : Option Bool
  pullCols1Ok : Bool
  pullColsOptOk : Bool
  optimizeRes : Option Bool
  swapOk : Bool
  dropTmpSwapOk : Bool
  truncateOk : Bool
  insertOk : Bool
  upsertRes : Option Nat
  postSQLTextOk : Bool
  postFormatOk : Bool
  postExecOk : Bool
  commitOk : Bool
deriving Repr, DecidableEq

/-- Result of WriteToDb: the Go return values plus the operation trace. -/
structure WRes where
  cnt : Nat
  err : Option String
  trace : List Ev
deriving Repr, DecidableEq

/-- WriteToDb lines 105-130: the staging table name used for the run;
none when ParseTableName fails.  A user-supplied TableTmp is used as is. -/
def tmpNameOf (cfg : WCfg) (conn : WConn) : Option String :=
  if cfg.tableTmp = "" then
    conn.parsedTarget.map fun p =>
      (deriveTmpTable p conn.upper conn.isOracle conn.rand2).fullName
  else some cfg.tableTmp

/-- WriteToDb lines 277-296: the pre-SQL block. -/
def preSQLPhase (cfg : WCfg) (conn : WConn) : List Ev × Option String :=
  if cfg.preSQL = "" then ([], none)
  else if ¬ conn.preSQLTextOk then ([], some "could not get pre-sql body")
  else if ¬ conn.preFormatOk then ([], some "could not get format map for pre-sql")
  else if ¬ conn.preExecOk then ([.execSQL cfg.preSQL], some "could not execute pre-sql on target")
  else ([.execSQL cfg.preSQL], none)

/-- WriteToDb lines 474-495: the post-SQL block. -/
def postSQLPhase (cfg : WCfg) (conn : WConn) : List Ev × Option String :=
  if cfg.postSQL = "" then ([], none)
  else if ¬ conn.postSQLTextOk then ([], some "could not get post-sql body")
  else if ¬ conn.postFormatOk then ([], some "could not get format map for post-sql")
  else if ¬ conn.postExecOk then ([.execSQL cfg.postSQL], some "error executing target post-sql")
  else ([.execSQL cfg.postSQL], none)

/-- WriteToDb lines 371-408: add-missing-columns and optimize-column-type
adjustments on the final table, applied only when the table pre-existed
and the mode is not full-refresh. -/
def schemaAdjust (cfg : WCfg) (conn : WConn) (created : Bool) : List Ev × Option String :=
  let tgt := cfg.targetObject
  if ¬ created ∧ cfg.mode ≠ FullRefreshMode then
    let addPart : List Ev × Option String :=
      if cfg.addNewColumns then
        match conn.addMissingRes with
        | none => ([.addColumns tgt], some "could not add missing columns")
        | some changed =>
          if changed ∧ ¬ conn.pullCols1Ok then ([.addColumns tgt], some "could not get table columns")
          else ([.addColumns tgt], none)
      else ([], none)
    match addPart with
    | (evA, some e) => (evA, some e)
    | (evA, none) =>
      if cfg.adjustColumnType then
        if ¬ conn.pullColsOptOk then (evA, some "could not get table columns for optimization")
        else
          match conn.optimizeRes with
          | none => (evA ++ [.optimizeTable tgt], some "could not optimize table schema")
          | some _ => (evA ++ [.optimizeTable tgt], none)
      else (evA, none)
  else ([], none)

/-- WriteToDb lines 411-472: the mode dispatch that moves staged data from
the temp table into the final table.  Returns the events, the error, and
the count value the Go code would return from this block (merge failures
return 0 except the truncate statement and the swap-cleanup drop). -/
def mergeDispatch (cfg : WCfg) (conn : WConn) (cnt : Nat) : List Ev × Option String × Nat :=
  let tgt := cfg.targetObject
  let tmp := cfg.tableTmp
  if cnt = 0 then ([], none, cnt)
  else if cfg.mode = SwapModeLiteral then
    if ¬ conn.swapOk then ([.swapTable tmp tgt], some "could not swap tables", 0)
    else if ¬ conn.dropTmpSwapOk then
      ([.swapTable tmp tgt, .dropTable tmp], some ("could not drop table " ++ tmp), cnt)
    else ([.swapTable tmp tgt, .dropTable tmp], none, cnt)
  else if (cfg.mode = IncrementalMode ∧ cfg.primaryKey = []) ∨ cfg.mode = SnapshotMode ∨ cfg.mode = FullRefreshMode then
    if conn.insertOk then ([.insertFromTemp tmp tgt], none, cnt)
    else ([.insertFromTemp tmp tgt], some "could not insert from temp", 0)
  else if cfg.mode = TruncateMode then
    if ¬ conn.truncateOk then ([.truncateTable tgt], some ("could not truncate table " ++ tgt), cnt)
    else if conn.insertOk then ([.truncateTable tgt, .insertFromTemp tmp tgt], none, cnt)
    else ([.truncateTable tgt, .insertFromTemp tmp tgt], some "could not insert from temp", 0)
  else if cfg.mode = IncrementalMode ∨ cfg.mode = BackfillMode then
    match conn.upsertRes with
    | none => ([.upsert tmp tgt cfg.primaryKey], some "could not incremental from temp", 0)
    | some _ => ([.upsert tmp tgt cfg.primaryKey], none, cnt)
  else ([], none, cnt)

/-- WriteToDb lines 337-504: everything executed after the final-table
transaction opens.  A deferred Rollback (line 335) covers every exit of
this portion; the caller appends that event.  The final error of a fully
successful run is df.Err() (line 503). -/
def mergePhase (cfg : WCfg) (conn : WConn) (df : WDf) (cnt : Nat) : List Ev × Option String × Nat :=
  let tgt := cfg.targetObject
  let dropEvs : List Ev := if cfg.mode = FullRefreshMode then [.dropTable tgt] else []
  if cfg.mode = FullRefreshMode ∧ ¬ conn.dropFinalOk then
    (dropEvs, some ("could not drop table " ++ tgt), cnt)
  else
    match conn.createFinalRes with
    | none => (dropEvs ++ [.createTable tgt], some ("could not create table " ++ tgt), cnt)
    | some created =>
      let evs1 := dropEvs ++ [.createTable tgt]
      if ¬ conn.parseFinal2Ok then (evs1, some "could not get table name for optimization", cnt)
      else
        match schemaAdjust cfg conn created with
        | (evs2, some e) => (evs1 ++ evs2, some e, cnt)
        | (evs2, none) =>
          match mergeDispatch cfg conn cnt with
          | (evs3, some e, c) => (evs1 ++ evs2 ++ evs3, some e, c)
          | (evs3, none, _) =>
            match postSQLPhase cfg conn with
            | (evs4, some e) => (evs1 ++ evs2 ++ evs3 ++ evs4, some e, cnt)
            | (evs4, none) =>
              let evsAll := evs1 ++ evs2 ++ evs3 ++ evs4 ++ [.commitTx true]
              if ¬ conn.commitOk then (evsAll, some "could not commit", cnt)
              else (evsAll, df.dfErr, cnt)

/-- Shallow embedding of WriteToDb (task_run_write.go lines 96-505). -/
def writeToDb (cfg : WCfg) (env : WEnv) (conn : WConn) (df : WDf) : WRes :=
  if df.columns = [] then ⟨0, some "no stream columns detected", []⟩
  else
    match tmpNameOf cfg conn with
    | none => ⟨0, some "no not parse object table name", []⟩
    | some tmp =>
      let cfg := { cfg with
        mode := if cfg.mode = "" then FullRefreshMode else cfg.mode,
        tableTmp := tmp }
      if ¬ conn.dropTmpOk then ⟨0, some ("could not drop table " ++ tmp), [.dropTable tmp]⟩
      else if ¬ conn.pauseOk then
        ⟨0, some "could not pause streams to infer columns", [.dropTable tmp, .pauseStreams]⟩
      else if cfg.tableDDL ≠ "" ∧ ¬ strContains cfg.tableDDL cfg.targetObject then
        ⟨0, some "table ddl must contain the exact object table name", [.dropTable tmp, .pauseStreams]⟩
      else if ¬ conn.createTmpOk then
        ⟨0, some ("could not create temp table " ++ tmp), [.dropTable tmp, .pauseStreams, .createTable tmp]⟩
      else
        let evs1 : List Ev := [.dropTable tmp, .pauseStreams, .createTable tmp, .registerCleanup tmp, .beginTx false]
        if ¬ conn.begin1Ok then
          ⟨0, some "could not open transaction to write to temp table", evs1⟩
        else
          match conn.bulkImportRes with
          | none => ⟨0, some ("could not insert into " ++ tmp), evs1 ++ [.bulkImport tmp, .rollbackTx]⟩
          | some cnt =>
            let evs2 := evs1 ++ [.bulkImport tmp, .commitTx false, .getCount tmp]
            if conn.tmpCount ≠ cnt then
              ⟨cnt, some "temp table count does not match stream count, aborting", evs2⟩
            else if conn.tmpCount = 0 ∧ df.bufferLen > 0 then
              ⟨cnt, some "loaded 0 records while sample data has records, exiting", evs2⟩
            else
              match preSQLPhase cfg conn with
              | (evsP, some e) => ⟨cnt, some e, evs2 ++ evsP⟩
              | (evsP, none) =>
                let evs3 := evs2 ++ evsP
                if cnt = 0 ∧ ¬ env.allowEmptyTables then ⟨cnt, none, evs3⟩
                else
                  let csEvs : List Ev :=
                    if cnt > 0 ∧ df.count ≤ 10000 then [.compareChecksums tmp] else []
                  if cnt > 0 ∧ df.count ≤ 10000 ∧ ¬ conn.checksumOk ∧ env.errorOnChecksumFailure then
                    ⟨cnt, some "checksum mismatch", evs3 ++ csEvs⟩
                  else
                    let evs4 := evs3 ++ csEvs
                    if ¬ conn.begin2Ok then
                      ⟨cnt, some "could not open transaction to write to final table", evs4 ++ [.beginTx true]⟩
                    else
                      match mergePhase cfg conn df cnt with
                      | (evsM, errM, cntM) =>
                        ⟨cntM, errM, evs4 ++ [.beginTx true] ++ evsM ++ [.rollbackTx]⟩

/-- Modelled from the spec: the load-timestamp metadata column name
(slingLoadedAtColumn, defined outside the embedded sources); only its
identity matters here, never its text. -/
def slingLoadedAtColumn : String := "_sling_loaded_at"

/-- The slice of Config that DetermineType's mode validation reads and
writes (config.go lines 224-265). -/
structure DCfg where
  mode : String
  srcIsFile : Bool
  srcIsBigTable : Bool
  updateKey : String
  primaryKey : List String
  rangeOpt : Option String
  metadataLoadedAt : Bool
deriving Repr, DecidableEq

/-- config.go lines 224-265: the mode/key validation portion of
DetermineType, before any connection is touched.  Returns the updated
config or the validation error. -/
def determineTypeModeCheck (cfg : DCfg) : Except String DCfg :=
  let cfg := if cfg.mode = "" then { cfg with mode := FullRefreshMode } else cfg
  if ¬ (cfg.mode = FullRefreshMode ∨ cfg.mode = IncrementalMode ∨ cfg.mode = BackfillMode ∨
        cfg.mode = SnapshotMode ∨ cfg.mode = TruncateMode) then
    .error "must specify valid mode: full-refresh, incremental, backfill, snapshot or truncate"
  else if cfg.mode = IncrementalMode then
    if cfg.srcIsBigTable then
      .ok { cfg with
        primaryKey := if cfg.primaryKey = [] then ["_bigtable_key"] else cfg.primaryKey,
        updateKey := if cfg.updateKey = "" then "_bigtable_timestamp" else cfg.updateKey }
    else if cfg.srcIsFile ∧ cfg.updateKey = slingLoadedAtColumn then
      .ok { cfg with metadataLoadedAt := true }
    else if cfg.updateKey = "" ∧ cfg.primaryKey = [] then
      .error "must specify value for update_key and/or primary_key for incremental mode"
    else .ok cfg
  else if cfg.mode = BackfillMode then
    if cfg.updateKey = "" ∨ cfg.primaryKey = [] then
      .error "must specify value for update_key and primary_key for backfill mode"
    else
      match cfg.rangeOpt with
      | none => .error "must specify range for backfill mode"
      | some r =>
        if (splitComma r).length ≠ 2 then
          .error "must specify valid range value for backfill mode separated by one comma"
        else .ok cfg
  else if cfg.mode = SnapshotMode then .ok { cfg with metadataLoadedAt := true }
  else .ok cfg

/-- strings.TrimPrefix(s, dash): drop a leading dash when present. -/
def trimDash (s : String) : String :=
  if startsWithDash s then String.mk s.data.tail else s

/-- strings.EqualFold modelled as case-insensitive equality. -/
def equalFold (a b : String) : Bool :=
  strToLower a == strToLower b

/-- ReadFromDB lines 38-70: resolve the configured select list against the
available source columns.  q is the qualifier quote of the source store.
Entries carrying a leading dash are exclusions; a mix of excluded and
plain entries is rejected, and so is excluding every available column. -/
def resolveSelect (sel : List String) (sourceCols : List String) (q : Char) :
    Except String (List String) :=
  if sel = [] then .ok ["*"]
  else
    let excluded := sel.filter fun f => startsWithDash f
    if excluded ≠ [] then
      if excluded.length ≠ sel.length then
        .error "all specified select columns must be excluded with a dash, cannot do partial exclude"
      else
        let includedCols := sourceCols.filter fun c =>
          excluded.all fun exField => ! equalFold c (removeChar q (trimDash exField))
        if includedCols = [] then .error "all available columns were excluded"
        else .ok includedCols
    else .ok sel

/-- Modelled from the Snowflake MERGE statement built by GenerateUpsertSQL
(database_snowflake.go lines 903-933): rows of the final table whose
primary-key value matches a staged row are updated to the staged values
(WHEN MATCHED THEN UPDATE), staged rows with no matching key are inserted
(WHEN NOT MATCHED THEN INSERT).  Tables are association lists from
primary-key value to row payload. -/
def mergeInto (tgt staged : List (String × String)) : List (String × String) :=
  (tgt.map fun kv =>
    match staged.lookup kv.1 with
    | some v => (kv.1, v)
    | none => kv)
  ++ staged.filter fun kv => (tgt.lookup kv.1).isNone

/-- A connection oracle on which every store operation succeeds, with a
three-row bulk import whose staged count matches. -/
def connOK : WConn where
  upper := false
  isOracle := false
  rand2 := "a1"
  parsedTarget := some ⟨"public", "tbl"⟩
  dropTmpOk := true
  pauseOk := true
  createTmpOk := true
  begin1Ok := true
  bulkImportRes := some 3
  tmpCount := 3
  preSQLTextOk := true
  preFormatOk := true
  preExecOk := true
  checksumOk := true
  begin2Ok := true
  dropFinalOk := true
  createFinalRes := some false
  parseFinal2Ok := true
  addMissingRes := some false
  pullCols1Ok := true
  pullColsOptOk := true
  optimizeRes := some false
  swapOk := true
  dropTmpSwapOk := true
  truncateOk := true
  insertOk := true
  upsertRes := some 3
  postSQLTextOk := true
  postFormatOk := true
  postExecOk := true
  commitOk := true

/-- A plain incremental configuration with a declared primary key. -/
def cfgBase : WCfg where
  mode := IncrementalMode
  targetObject := "public.tbl"
  tableTmp := "public.tbl_tmp"
  tableDDL := ""
  preSQL := ""
  postSQL := ""
  addNewColumns := false
  adjustColumnType := false
  primaryKey := ["id"]
  srcIsFile := false

/-- Default environment: no empty-table override, no strict checksums. -/
def envBase : WEnv where
  allowEmptyTables := false
  errorOnChecksumFailure := false

/-- A three-row dataflow with two columns and no stream error. -/
def dfBase : WDf where
  columns := ["id", "name"]
  bufferLen := 3
  count := 3
  dfErr := none

/-- Whether an operation writes the named (final) table. -/
def touchesFinal (tgt : String) : Ev → Bool
  | .dropTable t => t == tgt
  | .createTable t => t == tgt
  | .truncateTable t => t == tgt
  | .insertFromTemp _ t => t == tgt
  | .upsert _ t _ => t == tgt
  | .swapTable a b => a == tgt || b == tgt
  | _ => false

/-- The operations of a run that reaches the final-table transaction:
staging, verification, optional pre-SQL, optional checksum. -/
def stagingTrace (cfg : WCfg) (df : WDf) (tmp : String) (n : Nat) : List Ev :=
  [.dropTable tmp, .pauseStreams, .createTable tmp, .registerCleanup tmp, .beginTx false,
   .bulkImport tmp, .commitTx false, .getCount tmp]
  ++ (if cfg.preSQL = "" then [] else [.execSQL cfg.preSQL])
  ++ (if 0 < n ∧ df.count ≤ 10000 then [.compareChecksums tmp] else [])

/-- The conditions under which a WriteToDb run reaches the final-table
transaction (line 329) with stream count n. -/
def ReachesMerge (cfg : WCfg) (env : WEnv) (conn : WConn) (df : WDf) (n : Nat) : Prop :=
  conn.dropTmpOk = true ∧ conn.pauseOk = true ∧
  (cfg.tableDDL = "" ∨ strContains cfg.tableDDL cfg.targetObject = true) ∧
  conn.createTmpOk = true ∧ conn.begin1Ok = true ∧
  conn.bulkImportRes = some n ∧ conn.tmpCount = n ∧
  (n = 0 → df.bufferLen = 0) ∧
  (cfg.preSQL = "" ∨ (conn.preSQLTextOk = true ∧ conn.preFormatOk = true ∧ conn.preExecOk = true)) ∧
  (n = 0 → env.allowEmptyTables = true) ∧
  (0 < n → df.count ≤ 10000 → conn.checksumOk = false → env.errorOnChecksumFailure = false) ∧
  conn.begin2Ok = true

def isMergeOp : Ev → Bool
  | .truncateTable _ => true
  | .insertFromTemp _ _ => true
  | .upsert _ _ _ => true
  | .swapTable _ _ => true
  | _ => false

/-- The merge operations of a trace, in order. -/
def mergeOps (tr : List Ev) : List Ev :=
  tr.filter isMergeOp

-- Helper lemmas shared by the claim theorems below.

def connMismatch : WConn := { connOK with tmpCount := 2 }

def connZero : WConn := { connOK with bulkImportRes := some 0, tmpCount := 0 }

def dfZero : WDf := { dfBase with bufferLen := 0, count := 0 }

def connCk : WConn := { connOK with checksumOk := false }

def connUpFail : WConn := { connOK with upsertRes := none }

def dfEmpty : WDf := { dfBase with columns := [] }

def parsedLong : Table := ⟨"s", "averyveryverylongtablename123456"⟩

def cfgDerive : WCfg := { cfgBase with tableTmp := "" }

def connOracle : WConn :=
  { connOK with upper := true, isOracle := true, rand2 := "x9", parsedTarget := some parsedLong }

def dcfgBackfill : DCfg := ⟨"backfill", false, false, "u", ["id"], some "a,b", false⟩

def cfgSnap : WCfg := { cfgBase with mode := SnapshotMode }

theorem preSQLPhase_ok (cfg : WCfg) (conn : WConn)
    (h : cfg.preSQL = "" ∨ (conn.preSQLTextOk = true ∧ conn.preFormatOk = true ∧ conn.preExecOk = true)) :
    preSQLPhase cfg conn = ((if cfg.preSQL = "" then [] else [.execSQL cfg.preSQL]), none) := by
  unfold preSQLPhase
  rcases h with h | ⟨ha, hb, hc⟩
  · simp [h]
  · by_cases hp : cfg.preSQL = "" <;> simp [hp, ha, hb, hc]

theorem writeToDb_reaches_merge (cfg : WCfg) (env : WEnv) (conn : WConn) (df : WDf) (n : Nat) (tmp : String)
    (hcols : ¬ df.columns = []) (htmp : tmpNameOf cfg conn = some tmp) (hmode : ¬ cfg.mode = "")
    (h : ReachesMerge cfg env conn df n) :
    writeToDb cfg env conn df =
      ⟨(mergePhase { cfg with tableTmp := tmp } conn df n).2.2,
       (mergePhase { cfg with tableTmp := tmp } conn df n).2.1,
       stagingTrace cfg df tmp n ++ [.beginTx true]
         ++ (mergePhase { cfg with tableTmp := tmp } conn df n).1 ++ [.rollbackTx]⟩ := by
  obtain ⟨h1, h2, h3, h4, h5, h6, h7, h8, h9, h10, h11, h12⟩ := h
  have hddl : ¬(¬ cfg.tableDDL = "" ∧ ¬ strContains cfg.tableDDL cfg.targetObject = true) := by
    rcases h3 with h3 | h3 <;> simp [h3]
  have hbuf : ¬(n = 0 ∧ df.bufferLen > 0) := by
    rintro ⟨ha, hb⟩; rw [h8 ha] at hb; exact Nat.lt_irrefl 0 hb
  have hempty : ¬(n = 0 ∧ ¬ env.allowEmptyTables = true) := by
    rintro ⟨ha, hb⟩; exact hb (h10 ha)
  have hcs : ¬(n > 0 ∧ df.count ≤ 10000 ∧ ¬ conn.checksumOk = true ∧ env.errorOnChecksumFailure = true) := by
    rintro ⟨ha, hb, hc, hd⟩
    rw [h11 ha hb (by simpa using hc)] at hd
    exact Bool.false_ne_true hd
  unfold writeToDb
  rw [htmp, h6]
  simp only [if_neg hmode, if_neg hcols]
  rcases hM : mergePhase { cfg with tableTmp := tmp } conn df n with ⟨evsM, errM, cntM⟩
  have hpre := preSQLPhase_ok { cfg with tableTmp := tmp } conn (by simpa using h9)
  simp only [h1, h2, h4, h5, h7, h12, if_neg hddl, if_neg hbuf, if_neg hempty, if_neg hcs, hpre, hM]
  simp [stagingTrace, List.append_assoc]

/-- A merge operation: one of the statements that move staged rows. -/
theorem postSQLPhase_events (cfg : WCfg) (conn : WConn) :
    ∀ e ∈ (postSQLPhase cfg conn).1, e = Ev.execSQL cfg.postSQL := by
  unfold postSQLPhase
  repeat' split
  all_goals simp_all

theorem schemaAdjust_events (cfg : WCfg) (conn : WConn) (created : Bool) :
    ∀ e ∈ (schemaAdjust cfg conn created).1,
      e = Ev.addColumns cfg.targetObject ∨ e = Ev.optimizeTable cfg.targetObject := by
  unfold schemaAdjust
  repeat' split
  all_goals simp_all

theorem preSQLPhase_events (cfg : WCfg) (conn : WConn) :
    ∀ e ∈ (preSQLPhase cfg conn).1, e = Ev.execSQL cfg.preSQL := by
  unfold preSQLPhase
  repeat' split
  all_goals simp_all

theorem mergeDispatch_events (cfg : WCfg) (conn : WConn) (n : Nat) :
    ∀ e ∈ (mergeDispatch cfg conn n).1,
      e = Ev.swapTable cfg.tableTmp cfg.targetObject ∨ e = Ev.dropTable cfg.tableTmp ∨
      e = Ev.insertFromTemp cfg.tableTmp cfg.targetObject ∨ e = Ev.truncateTable cfg.targetObject ∨
      e = Ev.upsert cfg.tableTmp cfg.targetObject cfg.primaryKey := by
  unfold mergeDispatch
  repeat' split
  all_goals simp_all

set_option maxHeartbeats 2000000 in
theorem mergePhase_events (cfg : WCfg) (conn : WConn) (df : WDf) (n : Nat) :
    ∀ e ∈ (mergePhase cfg conn df n).1,
      e = Ev.dropTable cfg.targetObject ∨ e = Ev.createTable cfg.targetObject ∨
      e = Ev.addColumns cfg.targetObject ∨ e = Ev.optimizeTable cfg.targetObject ∨
      e = Ev.swapTable cfg.tableTmp cfg.targetObject ∨ e = Ev.dropTable cfg.tableTmp ∨
      e = Ev.insertFromTemp cfg.tableTmp cfg.targetObject ∨ e = Ev.truncateTable cfg.targetObject ∨
      e = Ev.upsert cfg.tableTmp cfg.targetObject cfg.primaryKey ∨
      e = Ev.execSQL cfg.postSQL ∨ e = Ev.commitTx true := by
  intro e he
  rcases hcr : conn.createFinalRes with _ | created
  · unfold mergePhase at he
    rw [hcr] at he
    repeat' split at he
    all_goals simp_all
    all_goals tauto
  · have hA := schemaAdjust_events cfg conn created
    have hD := mergeDispatch_events cfg conn n
    have hP := postSQLPhase_events cfg conn
    rcases hsa : schemaAdjust cfg conn created with ⟨evsA, eA⟩
    rcases hmd : mergeDispatch cfg conn n with ⟨evsD, eD, cD⟩
    rcases hps : postSQLPhase cfg conn with ⟨evsP, eP⟩
    rw [hsa] at hA
    rw [hmd] at hD
    rw [hps] at hP
    simp only [] at hA hD hP
    unfold mergePhase at he
    rw [hcr] at he
    simp only [] at he
    rw [hsa, hmd, hps] at he
    rcases eA with _ | eA <;> rcases eD with _ | eD <;> rcases eP with _ | eP <;>
      simp only [] at he <;>
      (try repeat' split at he) <;>
      (try simp only [List.append_assoc, List.mem_append, List.mem_singleton, List.mem_cons,
        List.not_mem_nil, or_false, false_or] at he) <;>
      (try casesm* _ ∨ _) <;>
      (first
        | tauto
        | (rename_i hmem
           first
             | (have h2 := hA e hmem; tauto)
             | (have h2 := hD e hmem; tauto)
             | (have h2 := hP e hmem; tauto)))

theorem mergePhase_success (cfg : WCfg) (conn : WConn) (df : WDf) (n : Nat)
    (created : Bool) (evsA evsD evsP : List Ev) (c : Nat)
    (hdrop : cfg.mode = FullRefreshMode → conn.dropFinalOk = true)
    (hcr : conn.createFinalRes = some created)
    (hp : conn.parseFinal2Ok = true)
    (hsa : schemaAdjust cfg conn created = (evsA, none))
    (hmd : mergeDispatch cfg conn n = (evsD, none, c))
    (hps : postSQLPhase cfg conn = (evsP, none))
    (hc : conn.commitOk = true) :
    mergePhase cfg conn df n =
      ((if cfg.mode = FullRefreshMode then [.dropTable cfg.targetObject] else [])
        ++ [.createTable cfg.targetObject] ++ evsA ++ evsD ++ evsP ++ [.commitTx true],
       df.dfErr, n) := by
  unfold mergePhase
  by_cases hm : cfg.mode = FullRefreshMode <;>
    simp [hm, hdrop, hcr, hp, hsa, hmd, hps, hc, List.append_assoc]

theorem mergePhase_dispatch_fail (cfg : WCfg) (conn : WConn) (df : WDf) (n : Nat)
    (created : Bool) (evsA evsD : List Ev) (e : String) (c : Nat)
    (hdrop : cfg.mode = FullRefreshMode → conn.dropFinalOk = true)
    (hcr : conn.createFinalRes = some created)
    (hp : conn.parseFinal2Ok = true)
    (hsa : schemaAdjust cfg conn created = (evsA, none))
    (hmd : mergeDispatch cfg conn n = (evsD, some e, c)) :
    mergePhase cfg conn df n =
      ((if cfg.mode = FullRefreshMode then [.dropTable cfg.targetObject] else [])
        ++ [.createTable cfg.targetObject] ++ evsA ++ evsD, some e, c) := by
  unfold mergePhase
  by_cases hm : cfg.mode = FullRefreshMode <;>
    simp [hm, hdrop, hcr, hp, hsa, hmd, List.append_assoc]

theorem mergePhase_post_fail (cfg : WCfg) (conn : WConn) (df : WDf) (n : Nat)
    (created : Bool) (evsA evsD evsP : List Ev) (e : String) (c : Nat)
    (hdrop : cfg.mode = FullRefreshMode → conn.dropFinalOk = true)
    (hcr : conn.createFinalRes = some created)
    (hp : conn.parseFinal2Ok = true)
    (hsa : schemaAdjust cfg conn created = (evsA, none))
    (hmd : mergeDispatch cfg conn n = (evsD, none, c))
    (hps : postSQLPhase cfg conn = (evsP, some e)) :
    mergePhase cfg conn df n =
      ((if cfg.mode = FullRefreshMode then [.dropTable cfg.targetObject] else [])
        ++ [.createTable cfg.targetObject] ++ evsA ++ evsD ++ evsP, some e, n) := by
  unfold mergePhase
  by_cases hm : cfg.mode = FullRefreshMode <;>
    simp [hm, hdrop, hcr, hp, hsa, hmd, hps, List.append_assoc]

/-- C1: when the staging-table row count disagrees with the number of rows
the bulk import reported, WriteToDb fails before opening the final-table
transaction, and no operation ever touches the final table. -/
theorem count_mismatch_aborts_before_merge
    (cfg : WCfg) (env : WEnv) (conn : WConn) (df : WDf) (n : Nat) (tmp : String)
    (htmp : tmpNameOf cfg conn = some tmp)
    (hne : tmp ≠ cfg.targetObject)
    (hbulk : conn.bulkImportRes = some n)
    (hcount : conn.tmpCount ≠ n) :
    (writeToDb cfg env conn df).err ≠ none ∧
    Ev.beginTx true ∉ (writeToDb cfg env conn df).trace ∧
    ∀ e ∈ (writeToDb cfg env conn df).trace, touchesFinal cfg.targetObject e = false := by
  unfold writeToDb
  rw [htmp, hbulk]
  simp only []
  refine ⟨?_, ?_, ?_⟩ <;> (repeat' split) <;> simp_all [touchesFinal]

theorem schemaAdjust_ok (cfg : WCfg) (conn : WConn) (created : Bool) (a b : Bool)
    (haddm : conn.addMissingRes = some a) (hpull : conn.pullCols1Ok = true)
    (hpullo : conn.pullColsOptOk = true) (hopt : conn.optimizeRes = some b) :
    (schemaAdjust cfg conn created).2 = none := by
  unfold schemaAdjust
  repeat' split
  all_goals simp_all

theorem postSQLPhase_ok (cfg : WCfg) (conn : WConn)
    (h : cfg.postSQL = "" ∨ (conn.postSQLTextOk = true ∧ conn.postFormatOk = true ∧ conn.postExecOk = true)) :
    postSQLPhase cfg conn = ((if cfg.postSQL = "" then [] else [.execSQL cfg.postSQL]), none) := by
  unfold postSQLPhase
  rcases h with h | ⟨ha, hb, hc⟩
  · simp [h]
  · by_cases hp : cfg.postSQL = "" <;> simp [hp, ha, hb, hc]

theorem mergeOps_schemaAdjust (cfg : WCfg) (conn : WConn) (created : Bool) :
    mergeOps (schemaAdjust cfg conn created).1 = [] := by
  unfold mergeOps schemaAdjust
  repeat' split
  all_goals simp [isMergeOp]

theorem mergeOps_stagingTrace (cfg : WCfg) (df : WDf) (tmp : String) (n : Nat) :
    mergeOps (stagingTrace cfg df tmp n) = [] := by
  unfold mergeOps stagingTrace
  repeat' split
  all_goals simp [isMergeOp]

theorem count_dropTable_stagingTrace (cfg : WCfg) (df : WDf) (tmp : String) (n : Nat) :
    (stagingTrace cfg df tmp n).count (Ev.dropTable tmp) = 1 := by
  unfold stagingTrace
  repeat' split
  all_goals simp [List.count_append, List.count_cons]

theorem commitTxTrue_not_in_stagingTrace (cfg : WCfg) (df : WDf) (tmp : String) (n : Nat) :
    Ev.commitTx true ∉ stagingTrace cfg df tmp n := by
  unfold stagingTrace
  repeat' split
  all_goals simp

theorem beginTxTrue_not_in_stagingTrace (cfg : WCfg) (df : WDf) (tmp : String) (n : Nat) :
    Ev.beginTx true ∉ stagingTrace cfg df tmp n := by
  unfold stagingTrace
  repeat' split
  all_goals simp

theorem mergeInto_map_mem (staged : List (String × String)) (k w : String)
    (hs : staged.lookup k = some w) :
    ∀ tgtT : List (String × String), (tgtT.lookup k).isSome →
      (k, w) ∈ tgtT.map (fun kv =>
        match staged.lookup kv.1 with
        | some v => (kv.1, v)
        | none => kv) := by
  intro tgtT
  induction tgtT with
  | nil => intro hk; simp [List.lookup] at hk
  | cons a t ih =>
    obtain ⟨a1, a2⟩ := a
    intro hk
    by_cases hka : k = a1
    · subst hka
      simp only [List.map_cons, List.mem_cons]
      left
      simp [hs]
    · have hbeq : (k == a1) = false := by simpa using hka
      simp only [List.lookup, hbeq] at hk
      simp only [List.map_cons, List.mem_cons]
      right
      exact ih hk

theorem writeToDb_mergeOps (cfg : WCfg) (env : WEnv) (conn : WConn) (df : WDf)
    (n : Nat) (tmp : String) (created a b : Bool) (evsD : List Ev) (c : Nat)
    (hcols : ¬ df.columns = [])
    (htmp : tmpNameOf cfg conn = some tmp)
    (hmode : ¬ cfg.mode = "")
    (hr : ReachesMerge cfg env conn df n)
    (hdrop : conn.dropFinalOk = true)
    (hcr : conn.createFinalRes = some created)
    (hpf : conn.parseFinal2Ok = true)
    (haddm : conn.addMissingRes = some a)
    (hpull : conn.pullCols1Ok = true)
    (hpullo : conn.pullColsOptOk = true)
    (hopt : conn.optimizeRes = some b)
    (hmd : mergeDispatch { cfg with tableTmp := tmp } conn n = (evsD, none, c))
    (hall : ∀ e ∈ evsD, isMergeOp e = true)
    (hpost : cfg.postSQL = "" ∨ (conn.postSQLTextOk = true ∧ conn.postFormatOk = true ∧ conn.postExecOk = true))
    (hcommit : conn.commitOk = true) :
    mergeOps (writeToDb cfg env conn df).trace = evsD := by
  rcases hsa : schemaAdjust { cfg with tableTmp := tmp } conn created with ⟨evsA, errA⟩
  have hok := schemaAdjust_ok { cfg with tableTmp := tmp } conn created a b haddm hpull hpullo hopt
  rw [hsa] at hok
  simp only [] at hok
  subst hok
  have hps := postSQLPhase_ok { cfg with tableTmp := tmp } conn (by simpa using hpost)
  rw [writeToDb_reaches_merge cfg env conn df n tmp hcols htmp hmode hr]
  rw [mergePhase_success _ conn df n created evsA evsD _ c (fun _ => hdrop) hcr hpf hsa hmd hps hcommit]
  have hsa0 := mergeOps_schemaAdjust { cfg with tableTmp := tmp } conn created
  rw [hsa] at hsa0
  have hst0 := mergeOps_stagingTrace cfg df tmp n
  have hD : List.filter isMergeOp evsD = evsD := List.filter_eq_self.mpr hall
  simp only [mergeOps] at hsa0 hst0 ⊢
  simp [List.filter_append, hsa0, hst0, hD, isMergeOp]
  split <;> simp [isMergeOp]

/-- C2: with a positive staged count, the merge strategy is selected
exactly by mode and declared keys: unkeyed incremental, snapshot and
full-refresh insert the staged rows from the temp table into the final
table; truncate truncates the final table then inserts from the temp
table; incremental or backfill with a declared primary key upserts from
the temp table into the final table keyed on the declared primary keys,
updating rows whose keys match and inserting the rest. -/
theorem merge_strategy_by_mode
    (cfg : WCfg) (env : WEnv) (conn : WConn) (df : WDf) (n : Nat) (tmp : String)
    (created a b : Bool) (u : Nat)
    (hcols : ¬ df.columns = [])
    (htmp : tmpNameOf cfg conn = some tmp)
    (hr : ReachesMerge cfg env conn df n)
    (hn : 0 < n)
    (hdrop : conn.dropFinalOk = true)
    (hcr : conn.createFinalRes = some created)
    (hpf : conn.parseFinal2Ok = true)
    (haddm : conn.addMissingRes = some a)
    (hpull : conn.pullCols1Ok = true)
    (hpullo : conn.pullColsOptOk = true)
    (hopt : conn.optimizeRes = some b)
    (htrunc : conn.truncateOk = true)
    (hins : conn.insertOk = true)
    (hup : conn.upsertRes = some u)
    (hpost : cfg.postSQL = "" ∨ (conn.postSQLTextOk = true ∧ conn.postFormatOk = true ∧ conn.postExecOk = true))
    (hcommit : conn.commitOk = true) :
    ((cfg.mode = IncrementalMode ∧ cfg.primaryKey = [] ∨ cfg.mode = SnapshotMode ∨ cfg.mode = FullRefreshMode) →
      mergeOps (writeToDb cfg env conn df).trace = [.insertFromTemp tmp cfg.targetObject]) ∧
    (cfg.mode = TruncateMode →
      mergeOps (writeToDb cfg env conn df).trace
        = [.truncateTable cfg.targetObject, .insertFromTemp tmp cfg.targetObject]) ∧
    ((cfg.mode = IncrementalMode ∨ cfg.mode = BackfillMode) → ¬ cfg.primaryKey = [] →
      mergeOps (writeToDb cfg env conn df).trace = [.upsert tmp cfg.targetObject cfg.primaryKey]) ∧
    (∀ tgtT staged : List (String × String), ∀ k v w : String,
      (tgtT.lookup k = some v → staged.lookup k = some w → (k, w) ∈ mergeInto tgtT staged) ∧
      (tgtT.lookup k = none → (k, w) ∈ staged → (k, w) ∈ mergeInto tgtT staged) ∧
      ((k, v) ∈ tgtT → staged.lookup k = none → (k, v) ∈ mergeInto tgtT staged)) := by
  have hn0 : ¬ n = 0 := by omega
  refine ⟨?_, ?_, ?_, ?_⟩
  · intro hm
    have hmode : ¬ cfg.mode = "" := by
      rcases hm with ⟨hm, _⟩ | hm | hm <;> rw [hm] <;> decide
    refine writeToDb_mergeOps cfg env conn df n tmp created a b _ n hcols htmp hmode hr hdrop hcr
      hpf haddm hpull hpullo hopt ?_ (by simp [isMergeOp]) hpost hcommit
    unfold mergeDispatch
    rcases hm with ⟨hm, hpk⟩ | hm | hm
    · simp [hm, hpk, hins, hn0, IncrementalMode, SnapshotMode, FullRefreshMode, SwapModeLiteral]
    · simp [hm, hins, hn0, IncrementalMode, SnapshotMode, FullRefreshMode, SwapModeLiteral]
    · simp [hm, hins, hn0, IncrementalMode, SnapshotMode, FullRefreshMode, SwapModeLiteral]
  · intro hm
    have hmode : ¬ cfg.mode = "" := by rw [hm]; decide
    refine writeToDb_mergeOps cfg env conn df n tmp created a b _ n hcols htmp hmode hr hdrop hcr
      hpf haddm hpull hpullo hopt ?_ (by simp [isMergeOp]) hpost hcommit
    unfold mergeDispatch
    simp [hm, htrunc, hins, hn0, TruncateMode, IncrementalMode, SnapshotMode, FullRefreshMode,
      SwapModeLiteral]
  · intro hm hpk
    have hmode : ¬ cfg.mode = "" := by rcases hm with hm | hm <;> rw [hm] <;> decide
    refine writeToDb_mergeOps cfg env conn df n tmp created a b _ n hcols htmp hmode hr hdrop hcr
      hpf haddm hpull hpullo hopt ?_ (by simp [isMergeOp]) hpost hcommit
    unfold mergeDispatch
    rcases hm with hm | hm <;>
      simp [hm, hpk, hup, hn0, IncrementalMode, BackfillMode, TruncateMode, SnapshotMode,
        FullRefreshMode, SwapModeLiteral]
  · intro tgtT staged k v w
    refine ⟨?_, ?_, ?_⟩
    · intro hv hw
      exact List.mem_append_left _
        (mergeInto_map_mem staged k w hw tgtT (by rw [hv]; rfl))
    · intro hv hw
      refine List.mem_append_right _ ?_
      simp only [List.mem_filter]
      exact ⟨hw, by simp [hv]⟩
    · intro hv hw
      refine List.mem_append_left _ ?_
      refine List.mem_map.mpr ⟨(k, v), hv, ?_⟩
      simp [hw]

theorem checksum_not_in_mergePhase (cfg : WCfg) (conn : WConn) (df : WDf) (n : Nat) (t : String) :
    Ev.compareChecksums t ∉ (mergePhase cfg conn df n).1 := by
  intro hm
  rcases mergePhase_events cfg conn df n _ hm with h|h|h|h|h|h|h|h|h|h|h <;> simp at h

theorem beginTx_not_in_mergePhase (cfg : WCfg) (conn : WConn) (df : WDf) (n : Nat) (b : Bool) :
    Ev.beginTx b ∉ (mergePhase cfg conn df n).1 := by
  intro hm
  rcases mergePhase_events cfg conn df n _ hm with h|h|h|h|h|h|h|h|h|h|h <;> simp at h

/-- C3: when zero rows were staged and the empty-tables override is off,
WriteToDb returns nil error, never opens the final-table transaction and
performs no operation on the final table. -/
theorem zero_staged_skips_merge
    (cfg : WCfg) (env : WEnv) (conn : WConn) (df : WDf) (tmp : String)
    (hcols : ¬ df.columns = [])
    (htmp : tmpNameOf cfg conn = some tmp)
    (hne : tmp ≠ cfg.targetObject)
    (h1 : conn.dropTmpOk = true) (h2 : conn.pauseOk = true)
    (h3 : cfg.tableDDL = "" ∨ strContains cfg.tableDDL cfg.targetObject = true)
    (h4 : conn.createTmpOk = true) (h5 : conn.begin1Ok = true)
    (hbulk : conn.bulkImportRes = some 0) (hcount : conn.tmpCount = 0)
    (hbuf : df.bufferLen = 0)
    (hpre : cfg.preSQL = "" ∨ (conn.preSQLTextOk = true ∧ conn.preFormatOk = true ∧ conn.preExecOk = true))
    (hempty : env.allowEmptyTables = false) :
    (writeToDb cfg env conn df).err = none ∧
    Ev.beginTx true ∉ (writeToDb cfg env conn df).trace ∧
    ∀ e ∈ (writeToDb cfg env conn df).trace, touchesFinal cfg.targetObject e = false := by
  have hddl : ¬(¬ cfg.tableDDL = "" ∧ ¬ strContains cfg.tableDDL cfg.targetObject = true) := by
    rcases h3 with h3 | h3 <;> simp [h3]
  have hpre2 := preSQLPhase_ok { cfg with
      mode := if cfg.mode = "" then FullRefreshMode else cfg.mode, tableTmp := tmp } conn
    (by simpa using hpre)
  have hres : writeToDb cfg env conn df =
      ⟨0, none,
        [.dropTable tmp, .pauseStreams, .createTable tmp, .registerCleanup tmp, .beginTx false,
         .bulkImport tmp, .commitTx false, .getCount tmp]
        ++ (if cfg.preSQL = "" then [] else [.execSQL cfg.preSQL])⟩ := by
    unfold writeToDb
    rw [htmp, hbulk]
    simp [if_neg hcols, eq_false hddl, h1, h2, h4, h5, hcount, hbuf, hempty, hpre2]
    all_goals tauto
  rw [hres]
  refine ⟨rfl, ?_, ?_⟩ <;> (try split) <;> simp [touchesFinal, hne]

set_option maxHeartbeats 1000000 in
/-- C4: the checksum comparison runs only when the aggregate row count is
at most 10000; a checksum mismatch aborts the run only when the strict
flag is set, and otherwise the run still reaches the final-table
transaction. -/
theorem checksum_bounded_and_nonfatal
    (cfg : WCfg) (env : WEnv) (conn : WConn) (df : WDf) :
    (∀ t, Ev.compareChecksums t ∈ (writeToDb cfg env conn df).trace → df.count ≤ 10000) ∧
    (∀ n tmp, ¬ df.columns = [] → tmpNameOf cfg conn = some tmp → ¬ cfg.mode = "" →
      ReachesMerge cfg env conn df n →
      conn.checksumOk = false → env.errorOnChecksumFailure = false →
      Ev.beginTx true ∈ (writeToDb cfg env conn df).trace) ∧
    (∀ n tmp, ¬ df.columns = [] → tmpNameOf cfg conn = some tmp →
      conn.dropTmpOk = true → conn.pauseOk = true →
      (cfg.tableDDL = "" ∨ strContains cfg.tableDDL cfg.targetObject = true) →
      conn.createTmpOk = true → conn.begin1Ok = true →
      conn.bulkImportRes = some n → conn.tmpCount = n → 0 < n →
      (cfg.preSQL = "" ∨ (conn.preSQLTextOk = true ∧ conn.preFormatOk = true ∧ conn.preExecOk = true)) →
      df.count ≤ 10000 → conn.checksumOk = false → env.errorOnChecksumFailure = true →
      (writeToDb cfg env conn df).err ≠ none ∧
      Ev.beginTx true ∉ (writeToDb cfg env conn df).trace) := by
  refine ⟨?_, ?_, ?_⟩
  · intro t hmem
    by_cases hc : df.columns = []
    · unfold writeToDb at hmem
      rw [if_pos hc] at hmem
      simp at hmem
    · rcases ht : tmpNameOf cfg conn with _ | tmp
      · unfold writeToDb at hmem
        rw [if_neg hc, ht] at hmem
        simp at hmem
      · rcases hbk : conn.bulkImportRes with _ | m
        · unfold writeToDb at hmem
          rw [if_neg hc, ht] at hmem
          simp only [] at hmem
          rw [hbk] at hmem
          simp only [apply_ite WRes.trace] at hmem
          repeat' split at hmem
          all_goals simp_all
        · have hPev := preSQLPhase_events
            { cfg with mode := (if cfg.mode = "" then FullRefreshMode else cfg.mode), tableTmp := tmp } conn
          have hMev := mergePhase_events
            { cfg with mode := (if cfg.mode = "" then FullRefreshMode else cfg.mode), tableTmp := tmp } conn df m
          rcases hpp : preSQLPhase
              { cfg with mode := (if cfg.mode = "" then FullRefreshMode else cfg.mode), tableTmp := tmp } conn with ⟨evsP, eP⟩
          rcases hMM : mergePhase
              { cfg with mode := (if cfg.mode = "" then FullRefreshMode else cfg.mode), tableTmp := tmp } conn df m with ⟨evsM, eM, cM⟩
          rw [hpp] at hPev
          rw [hMM] at hMev
          simp only [] at hPev hMev
          unfold writeToDb at hmem
          rw [if_neg hc, ht] at hmem
          simp only [] at hmem
          rw [hbk] at hmem
          simp only [] at hmem
          rw [hpp, hMM] at hmem
          rcases eP with _ | eP <;> simp only [] at hmem <;>
            simp only [apply_ite WRes.trace] at hmem
          ·
            by_cases hq : df.count ≤ 10000
            · exact hq
            · exfalso
              by_cases h1 : ¬conn.dropTmpOk = true
              · rw [if_pos h1] at hmem; simp at hmem
              rw [if_neg h1] at hmem
              by_cases h2 : ¬conn.pauseOk = true
              · rw [if_pos h2] at hmem; simp at hmem
              rw [if_neg h2] at hmem
              by_cases h3 : cfg.tableDDL ≠ "" ∧ ¬strContains cfg.tableDDL cfg.targetObject = true
              · rw [if_pos h3] at hmem; simp at hmem
              rw [if_neg h3] at hmem
              by_cases h4 : ¬conn.createTmpOk = true
              · rw [if_pos h4] at hmem; simp at hmem
              rw [if_neg h4] at hmem
              by_cases h5 : ¬conn.begin1Ok = true
              · rw [if_pos h5] at hmem; simp at hmem
              rw [if_neg h5] at hmem
              by_cases h6 : conn.tmpCount ≠ m
              · rw [if_pos h6] at hmem; simp at hmem
              rw [if_neg h6] at hmem
              by_cases h7 : conn.tmpCount = 0 ∧ df.bufferLen > 0
              · rw [if_pos h7] at hmem; simp at hmem
              rw [if_neg h7] at hmem
              by_cases h8 : m = 0 ∧ ¬env.allowEmptyTables = true
              · rw [if_pos h8] at hmem
                simp at hmem
                exact absurd (hPev _ hmem) (by simp)
              rw [if_neg h8] at hmem
              rw [if_neg (by tauto :
                ¬(m > 0 ∧ df.count ≤ 10000 ∧ ¬conn.checksumOk = true ∧ env.errorOnChecksumFailure = true))] at hmem
              rw [if_neg (by tauto : ¬(m > 0 ∧ df.count ≤ 10000))] at hmem
              by_cases h10 : ¬conn.begin2Ok = true
              · rw [if_pos h10] at hmem
                simp at hmem
                exact absurd (hPev _ hmem) (by simp)
              · rw [if_neg h10] at hmem
                simp at hmem
                rcases hmem with hmem | hmem
                · exact absurd (hPev _ hmem) (by simp)
                · rcases hMev _ hmem with h|h|h|h|h|h|h|h|h|h|h <;> simp at h
          ·
            -- pre-SQL failed: the run stops right after the pre-SQL events
            by_cases hq : df.count ≤ 10000
            · exact hq
            · exfalso
              by_cases h1 : ¬conn.dropTmpOk = true
              · rw [if_pos h1] at hmem; simp at hmem
              rw [if_neg h1] at hmem
              by_cases h2 : ¬conn.pauseOk = true
              · rw [if_pos h2] at hmem; simp at hmem
              rw [if_neg h2] at hmem
              by_cases h3 : cfg.tableDDL ≠ "" ∧ ¬strContains cfg.tableDDL cfg.targetObject = true
              · rw [if_pos h3] at hmem; simp at hmem
              rw [if_neg h3] at hmem
              by_cases h4 : ¬conn.createTmpOk = true
              · rw [if_pos h4] at hmem; simp at hmem
              rw [if_neg h4] at hmem
              by_cases h5 : ¬conn.begin1Ok = true
              · rw [if_pos h5] at hmem; simp at hmem
              rw [if_neg h5] at hmem
              by_cases h6 : conn.tmpCount ≠ m
              · rw [if_pos h6] at hmem; simp at hmem
              rw [if_neg h6] at hmem
              by_cases h7 : conn.tmpCount = 0 ∧ df.bufferLen > 0
              · rw [if_pos h7] at hmem; simp at hmem
              rw [if_neg h7] at hmem
              simp at hmem
              exact absurd (hPev _ hmem) (by simp)
  · intro n tmp hcols htmp hmode hr hcs hstrict
    rw [writeToDb_reaches_merge cfg env conn df n tmp hcols htmp hmode hr]
    simp [stagingTrace]
  · intro n tmp hcols htmp h1 h2 h3 h4 h5 hbulk hcount hn hpre hden hcs hstrict
    have hddl : ¬(¬ cfg.tableDDL = "" ∧ ¬ strContains cfg.tableDDL cfg.targetObject = true) := by
      rcases h3 with h3 | h3 <;> simp [h3]
    have hbuf : ¬(conn.tmpCount = 0 ∧ df.bufferLen > 0) := by
      rintro ⟨ha, _⟩; rw [hcount] at ha; omega
    have hempty : ¬(n = 0 ∧ ¬ env.allowEmptyTables = true) := by
      rintro ⟨ha, _⟩; omega
    have hpre2 := preSQLPhase_ok { cfg with
        mode := if cfg.mode = "" then FullRefreshMode else cfg.mode, tableTmp := tmp } conn
      (by simpa using hpre)
    unfold writeToDb
    rw [htmp, hbulk]
    simp only [if_neg hcols, h1, h2, h4, h5, hcount, if_neg hddl, if_neg hbuf, if_neg hempty, hpre2,
      hcs, hstrict, hden, hn]
    refine ⟨?_, ?_⟩ <;> (try repeat' split) <;> simp_all

theorem c5_concl_core (cfg : WCfg) (env : WEnv) (conn : WConn) (df : WDf) (n : Nat)
    (tmp : String) (evsM : List Ev) (msg : String) (cM : Nat)
    (hcols : ¬ df.columns = [])
    (htmp : tmpNameOf cfg conn = some tmp)
    (hmode : ¬ cfg.mode = "")
    (hr : ReachesMerge cfg env conn df n)
    (hM : mergePhase { cfg with tableTmp := tmp } conn df n = (evsM, some msg, cM))
    (hnocommit : Ev.commitTx true ∉ evsM)
    (hnodrop : Ev.dropTable tmp ∉ evsM) :
    (writeToDb cfg env conn df).err ≠ none ∧
    Ev.commitTx true ∉ (writeToDb cfg env conn df).trace ∧
    Ev.rollbackTx ∈ (writeToDb cfg env conn df).trace ∧
    ((writeToDb cfg env conn df).trace.count (Ev.dropTable tmp)) = 1 := by
  rw [writeToDb_reaches_merge cfg env conn df n tmp hcols htmp hmode hr]
  rw [hM]
  refine ⟨by simp, ?_, by simp, ?_⟩
  · simp only [WRes.trace, List.mem_append, List.mem_singleton]
    push_neg
    exact ⟨⟨⟨commitTxTrue_not_in_stagingTrace cfg df tmp n, by simp⟩, hnocommit⟩, by simp⟩
  · simp only [WRes.trace, List.count_append]
    rw [count_dropTable_stagingTrace cfg df tmp n, List.count_eq_zero.mpr hnodrop]
    simp

theorem c5_of_dispatch_fail (cfg : WCfg) (env : WEnv) (conn : WConn) (df : WDf) (n : Nat)
    (tmp : String) (created a b : Bool) (evsD : List Ev) (msg : String) (c : Nat)
    (hcols : ¬ df.columns = [])
    (htmp : tmpNameOf cfg conn = some tmp)
    (hmode : ¬ cfg.mode = "")
    (hne : tmp ≠ cfg.targetObject)
    (hr : ReachesMerge cfg env conn df n)
    (hdrop : conn.dropFinalOk = true)
    (hcr : conn.createFinalRes = some created)
    (hpf : conn.parseFinal2Ok = true)
    (haddm : conn.addMissingRes = some a)
    (hpull : conn.pullCols1Ok = true)
    (hpullo : conn.pullColsOptOk = true)
    (hopt : conn.optimizeRes = some b)
    (hmd : mergeDispatch { cfg with tableTmp := tmp } conn n = (evsD, some msg, c))
    (hD : ∀ e ∈ evsD, isMergeOp e = true) :
    (writeToDb cfg env conn df).err ≠ none ∧
    Ev.commitTx true ∉ (writeToDb cfg env conn df).trace ∧
    Ev.rollbackTx ∈ (writeToDb cfg env conn df).trace ∧
    ((writeToDb cfg env conn df).trace.count (Ev.dropTable tmp)) = 1 := by
  rcases hsa : schemaAdjust { cfg with tableTmp := tmp } conn created with ⟨evsA, errA⟩
  have hok := schemaAdjust_ok { cfg with tableTmp := tmp } conn created a b haddm hpull hpullo hopt
  rw [hsa] at hok
  simp only [] at hok
  subst hok
  have hAev := schemaAdjust_events { cfg with tableTmp := tmp } conn created
  rw [hsa] at hAev
  simp only [] at hAev
  have hM := mergePhase_dispatch_fail { cfg with tableTmp := tmp } conn df n created evsA evsD
    msg c (fun _ => hdrop) hcr hpf hsa hmd
  refine c5_concl_core cfg env conn df n tmp _ msg c hcols htmp hmode hr hM ?_ ?_
  · intro hmem
    simp only [List.mem_append, List.mem_singleton] at hmem
    rcases hmem with ((hmem | hmem) | hmem) | hmem
    · revert hmem; split <;> simp
    · simp at hmem
    · rcases hAev _ hmem with h | h <;> simp at h
    · have := hD _ hmem; simp [isMergeOp] at this
  · intro hmem
    simp only [List.mem_append, List.mem_singleton] at hmem
    rcases hmem with ((hmem | hmem) | hmem) | hmem
    · revert hmem; split <;> simp [hne]
    · simp at hmem
    · rcases hAev _ hmem with h | h <;> simp at h
    · have := hD _ hmem; simp [isMergeOp] at this

theorem c5_of_post_fail (cfg : WCfg) (env : WEnv) (conn : WConn) (df : WDf) (n : Nat)
    (tmp : String) (created a b : Bool) (evsD : List Ev) (c : Nat)
    (hcols : ¬ df.columns = [])
    (htmp : tmpNameOf cfg conn = some tmp)
    (hmode : ¬ cfg.mode = "")
    (hne : tmp ≠ cfg.targetObject)
    (hr : ReachesMerge cfg env conn df n)
    (hdrop : conn.dropFinalOk = true)
    (hcr : conn.createFinalRes = some created)
    (hpf : conn.parseFinal2Ok = true)
    (haddm : conn.addMissingRes = some a)
    (hpull : conn.pullCols1Ok = true)
    (hpullo : conn.pullColsOptOk = true)
    (hopt : conn.optimizeRes = some b)
    (hmd : mergeDispatch { cfg with tableTmp := tmp } conn n = (evsD, none, c))
    (hD : ∀ e ∈ evsD, isMergeOp e = true)
    (hpna : ¬ cfg.postSQL = "")
    (hpt : conn.postSQLTextOk = true)
    (hpfm : conn.postFormatOk = true)
    (hpe : conn.postExecOk = false) :
    (writeToDb cfg env conn df).err ≠ none ∧
    Ev.commitTx true ∉ (writeToDb cfg env conn df).trace ∧
    Ev.rollbackTx ∈ (writeToDb cfg env conn df).trace ∧
    ((writeToDb cfg env conn df).trace.count (Ev.dropTable tmp)) = 1 := by
  rcases hsa : schemaAdjust { cfg with tableTmp := tmp } conn created with ⟨evsA, errA⟩
  have hok := schemaAdjust_ok { cfg with tableTmp := tmp } conn created a b haddm hpull hpullo hopt
  rw [hsa] at hok
  simp only [] at hok
  subst hok
  have hAev := schemaAdjust_events { cfg with tableTmp := tmp } conn created
  rw [hsa] at hAev
  simp only [] at hAev
  have hps : postSQLPhase { cfg with tableTmp := tmp } conn =
      ([.execSQL cfg.postSQL], some "error executing target post-sql") := by
    unfold postSQLPhase
    simp [hpna, hpt, hpfm, hpe]
  have hM := mergePhase_post_fail { cfg with tableTmp := tmp } conn df n created evsA evsD
    [.execSQL cfg.postSQL] "error executing target post-sql" c (fun _ => hdrop) hcr hpf hsa hmd hps
  refine c5_concl_core cfg env conn df n tmp _ _ n hcols htmp hmode hr hM ?_ ?_
  · intro hmem
    simp only [List.mem_append, List.mem_singleton] at hmem
    rcases hmem with (((hmem | hmem) | hmem) | hmem) | hmem
    · revert hmem; split <;> simp
    · simp at hmem
    · rcases hAev _ hmem with h | h <;> simp at h
    · have := hD _ hmem; simp [isMergeOp] at this
    · simp at hmem
  · intro hmem
    simp only [List.mem_append, List.mem_singleton] at hmem
    rcases hmem with (((hmem | hmem) | hmem) | hmem) | hmem
    · revert hmem; split <;> simp [hne]
    · simp at hmem
    · rcases hAev _ hmem with h | h <;> simp at h
    · have := hD _ hmem; simp [isMergeOp] at this
    · simp at hmem

/-- C5: when a merge-phase operation fails (truncate, insert-from-temp,
upsert, or the post-SQL), the final-table transaction is never committed,
the deferred rollback runs, the error is surfaced, and the merge path
performs no drop of the staging table beyond the initial staging drop. -/
theorem merge_failure_rolls_back
    (cfg : WCfg) (env : WEnv) (conn : WConn) (df : WDf) (n : Nat) (tmp : String)
    (created a b : Bool)
    (hcols : ¬ df.columns = [])
    (htmp : tmpNameOf cfg conn = some tmp)
    (hne : tmp ≠ cfg.targetObject)
    (hr : ReachesMerge cfg env conn df n)
    (hn : 0 < n)
    (hdrop : conn.dropFinalOk = true)
    (hcr : conn.createFinalRes = some created)
    (hpf : conn.parseFinal2Ok = true)
    (haddm : conn.addMissingRes = some a)
    (hpull : conn.pullCols1Ok = true)
    (hpullo : conn.pullColsOptOk = true)
    (hopt : conn.optimizeRes = some b)
    (hfail :
      (cfg.mode = TruncateMode ∧ conn.truncateOk = false) ∨
      ((cfg.mode = IncrementalMode ∧ cfg.primaryKey = [] ∨ cfg.mode = SnapshotMode ∨
        cfg.mode = FullRefreshMode) ∧ conn.insertOk = false) ∨
      (cfg.mode = TruncateMode ∧ conn.truncateOk = true ∧ conn.insertOk = false) ∨
      ((cfg.mode = IncrementalMode ∨ cfg.mode = BackfillMode) ∧ ¬ cfg.primaryKey = [] ∧
        conn.upsertRes = none) ∨
      ((cfg.mode = IncrementalMode ∨ cfg.mode = SnapshotMode ∨ cfg.mode = FullRefreshMode ∨
        cfg.mode = TruncateMode ∨ cfg.mode = BackfillMode) ∧
        conn.truncateOk = true ∧ conn.insertOk = true ∧ (∃ u, conn.upsertRes = some u) ∧
        ¬ cfg.postSQL = "" ∧ conn.postSQLTextOk = true ∧ conn.postFormatOk = true ∧
        conn.postExecOk = false)) :
    (writeToDb cfg env conn df).err ≠ none ∧
    Ev.commitTx true ∉ (writeToDb cfg env conn df).trace ∧
    Ev.rollbackTx ∈ (writeToDb cfg env conn df).trace ∧
    ((writeToDb cfg env conn df).trace.count (Ev.dropTable tmp)) = 1 := by
  have hn0 : ¬ n = 0 := by omega
  have hins : ∀ e ∈ ([.insertFromTemp tmp cfg.targetObject] : List Ev), isMergeOp e = true := by
    intro e he
    simp only [List.mem_singleton] at he
    subst he
    rfl
  have htri : ∀ e ∈ ([.truncateTable cfg.targetObject, .insertFromTemp tmp cfg.targetObject] : List Ev),
      isMergeOp e = true := by
    intro e he
    simp only [List.mem_cons, List.mem_singleton, List.not_mem_nil, or_false] at he
    rcases he with he | he <;> subst he <;> rfl
  have hups : ∀ e ∈ ([.upsert tmp cfg.targetObject cfg.primaryKey] : List Ev), isMergeOp e = true := by
    intro e he
    simp only [List.mem_singleton] at he
    subst he
    rfl
  have htrn : ∀ e ∈ ([.truncateTable cfg.targetObject] : List Ev), isMergeOp e = true := by
    intro e he
    simp only [List.mem_singleton] at he
    subst he
    rfl
  rcases hfail with ⟨hm, hop⟩ | ⟨hm, hop⟩ | ⟨hm, ht, hop⟩ | ⟨hm, hpk, hop⟩ |
    ⟨hm, ht, hi, ⟨u, hu⟩, hpna, hpt, hpfm, hpe⟩
  · refine c5_of_dispatch_fail cfg env conn df n tmp created a b
      [.truncateTable cfg.targetObject] ("could not truncate table " ++ cfg.targetObject) n
      hcols htmp (by rw [hm]; decide) hne hr hdrop hcr hpf haddm hpull hpullo hopt ?_ htrn
    unfold mergeDispatch
    simp [hm, hop, hn0, TruncateMode, IncrementalMode, SnapshotMode, FullRefreshMode, SwapModeLiteral]
  · have hmode : ¬ cfg.mode = "" := by
      rcases hm with ⟨hm, _⟩ | hm | hm <;> rw [hm] <;> decide
    refine c5_of_dispatch_fail cfg env conn df n tmp created a b
      [.insertFromTemp tmp cfg.targetObject] "could not insert from temp" 0
      hcols htmp hmode hne hr hdrop hcr hpf haddm hpull hpullo hopt ?_ hins
    unfold mergeDispatch
    rcases hm with ⟨hm, hpk⟩ | hm | hm
    · simp [hm, hpk, hop, hn0, IncrementalMode, SnapshotMode, FullRefreshMode, SwapModeLiteral]
    · simp [hm, hop, hn0, IncrementalMode, SnapshotMode, FullRefreshMode, SwapModeLiteral]
    · simp [hm, hop, hn0, IncrementalMode, SnapshotMode, FullRefreshMode, SwapModeLiteral]
  · refine c5_of_dispatch_fail cfg env conn df n tmp created a b
      [.truncateTable cfg.targetObject, .insertFromTemp tmp cfg.targetObject]
      "could not insert from temp" 0
      hcols htmp (by rw [hm]; decide) hne hr hdrop hcr hpf haddm hpull hpullo hopt ?_ htri
    unfold mergeDispatch
    simp [hm, ht, hop, hn0, TruncateMode, IncrementalMode, SnapshotMode, FullRefreshMode,
      SwapModeLiteral]
  · refine c5_of_dispatch_fail cfg env conn df n tmp created a b
      [.upsert tmp cfg.targetObject cfg.primaryKey] "could not incremental from temp" 0
      hcols htmp (by rcases hm with hm | hm <;> rw [hm] <;> decide) hne hr hdrop hcr hpf
      haddm hpull hpullo hopt ?_ hups
    unfold mergeDispatch
    rcases hm with hm | hm <;>
      simp [hm, hpk, hop, hn0, IncrementalMode, BackfillMode, TruncateMode, SnapshotMode,
        FullRefreshMode, SwapModeLiteral]
  · have hmode : ¬ cfg.mode = "" := by
      rcases hm with hm | hm | hm | hm | hm <;> rw [hm] <;> decide
    rcases hm with hm | hm | hm | hm | hm
    · by_cases hpk : cfg.primaryKey = []
      · refine c5_of_post_fail cfg env conn df n tmp created a b
          [.insertFromTemp tmp cfg.targetObject] n hcols htmp hmode hne hr
          hdrop hcr hpf haddm hpull hpullo hopt ?_ hins hpna hpt hpfm hpe
        unfold mergeDispatch
        simp [hm, hpk, hi, hn0, IncrementalMode, SnapshotMode, FullRefreshMode, SwapModeLiteral]
      · refine c5_of_post_fail cfg env conn df n tmp created a b
          [.upsert tmp cfg.targetObject cfg.primaryKey] n hcols htmp hmode hne hr
          hdrop hcr hpf haddm hpull hpullo hopt ?_ hups hpna hpt hpfm hpe
        unfold mergeDispatch
        simp [hm, hpk, hu, hn0, IncrementalMode, BackfillMode, TruncateMode, SnapshotMode,
          FullRefreshMode, SwapModeLiteral]
    · refine c5_of_post_fail cfg env conn df n tmp created a b
        [.insertFromTemp tmp cfg.targetObject] n hcols htmp hmode hne hr
        hdrop hcr hpf haddm hpull hpullo hopt ?_ hins hpna hpt hpfm hpe
      unfold mergeDispatch
      simp [hm, hi, hn0, IncrementalMode, SnapshotMode, FullRefreshMode, SwapModeLiteral]
    · refine c5_of_post_fail cfg env conn df n tmp created a b
        [.insertFromTemp tmp cfg.targetObject] n hcols htmp hmode hne hr
        hdrop hcr hpf haddm hpull hpullo hopt ?_ hins hpna hpt hpfm hpe
      unfold mergeDispatch
      simp [hm, hi, hn0, IncrementalMode, SnapshotMode, FullRefreshMode, SwapModeLiteral]
    · refine c5_of_post_fail cfg env conn df n tmp created a b
        [.truncateTable cfg.targetObject, .insertFromTemp tmp cfg.targetObject] n
        hcols htmp hmode hne hr hdrop hcr hpf haddm hpull hpullo hopt ?_ htri hpna hpt hpfm hpe
      unfold mergeDispatch
      simp [hm, ht, hi, hn0, TruncateMode, IncrementalMode, SnapshotMode, FullRefreshMode,
        SwapModeLiteral]
    · refine c5_of_post_fail cfg env conn df n tmp created a b
        [.upsert tmp cfg.targetObject cfg.primaryKey] n hcols htmp hmode hne hr
        hdrop hcr hpf haddm hpull hpullo hopt ?_ hups hpna hpt hpfm hpe
      unfold mergeDispatch
      simp [hm, hu, hn0, IncrementalMode, BackfillMode, TruncateMode, SnapshotMode,
        FullRefreshMode, SwapModeLiteral]

/-- C6: the temp table is the target table name suffixed with _TMP (upper
case) or _tmp (lower case); only on Oracle is the name first truncated to
24 characters and a two-character random suffix appended (upper- or
lower-cased to match); WriteToDb stages into exactly this derived table. -/
theorem tmp_table_naming (parsed : Table) (upper isOracle : Bool) (rand2 : String) :
    (isOracle = false →
      (deriveTmpTable parsed upper isOracle rand2).name
        = parsed.name ++ (if upper then "_TMP" else "_tmp") ∧
      ∀ r', deriveTmpTable parsed upper isOracle rand2 = deriveTmpTable parsed upper isOracle r') ∧
    (isOracle = true →
      (deriveTmpTable parsed upper isOracle rand2).name
        = (if parsed.name.length > 24 then strTake parsed.name 24 else parsed.name)
          ++ (if upper then "_TMP" else "_tmp")
          ++ (if upper then strToUpper rand2 else strToLower rand2)) ∧
    (∀ cfg conn, cfg.tableTmp = "" → conn.parsedTarget = some parsed →
      conn.upper = upper → conn.isOracle = isOracle → conn.rand2 = rand2 →
      tmpNameOf cfg conn = some (deriveTmpTable parsed upper isOracle rand2).fullName) ∧
    (∀ cfg env conn df n, cfg.tableTmp = "" → conn.parsedTarget = some parsed →
      conn.upper = upper → conn.isOracle = isOracle → conn.rand2 = rand2 →
      ¬ df.columns = [] → ¬ cfg.mode = "" → ReachesMerge cfg env conn df n →
      (writeToDb cfg env conn df).trace.head?
        = some (.dropTable (deriveTmpTable parsed upper isOracle rand2).fullName)) := by
  refine ⟨?_, ?_, ?_, ?_⟩
  · intro h
    unfold deriveTmpTable
    simp [h]
  · intro h
    unfold deriveTmpTable
    by_cases hl : parsed.name.length > 24 <;> simp [h, hl, String.append_assoc]
  · intro cfg conn h1 h2 h3 h4 h5
    unfold tmpNameOf
    rw [if_pos h1, h2, h3, h4, h5]
    rfl
  · intro cfg env conn df n h1 h2 h3 h4 h5 hcols hmode hr
    have htmp : tmpNameOf cfg conn
        = some (deriveTmpTable parsed upper isOracle rand2).fullName := by
      unfold tmpNameOf
      rw [if_pos h1, h2, h3, h4, h5]
      rfl
    rw [writeToDb_reaches_merge cfg env conn df n _ hcols htmp hmode hr]
    simp [stagingTrace]

/-- C7: DetermineType validates the mode: an unrecognized mode is rejected;
incremental without primary key, update key, or full outer join errors;
backfill requires an update key, a primary key, and a range value made of
exactly two comma-separated bounds. -/
theorem mode_validation (cfg : DCfg) :
    (¬ cfg.mode = "" →
      ¬ (cfg.mode = FullRefreshMode ∨ cfg.mode = IncrementalMode ∨ cfg.mode = BackfillMode ∨
         cfg.mode = SnapshotMode ∨ cfg.mode = TruncateMode) →
      ∃ e, determineTypeModeCheck cfg = .error e) ∧
    (cfg.mode = "" → determineTypeModeCheck cfg = .ok { cfg with mode := FullRefreshMode }) ∧
    (cfg.mode = IncrementalMode → cfg.srcIsBigTable = false → cfg.srcIsFile = false →
      cfg.updateKey = "" → cfg.primaryKey = [] → ∃ e, determineTypeModeCheck cfg = .error e) ∧
    (cfg.mode = BackfillMode →
      ((∃ c, determineTypeModeCheck cfg = .ok c) ↔
        (¬ cfg.updateKey = "" ∧ ¬ cfg.primaryKey = [] ∧
         ∃ r, cfg.rangeOpt = some r ∧ (splitComma r).length = 2))) := by
  refine ⟨?_, ?_, ?_, ?_⟩
  · intro h0 hv
    unfold determineTypeModeCheck
    rw [if_neg h0]
    simp only []
    rw [if_pos hv]
    exact ⟨_, rfl⟩
  · intro h0
    unfold determineTypeModeCheck
    rw [if_pos h0]
    simp [FullRefreshMode, IncrementalMode, BackfillMode, SnapshotMode, TruncateMode]
  · intro hm hbt hfile hus hpk
    unfold determineTypeModeCheck
    rw [if_neg (show ¬ cfg.mode = "" by rw [hm]; decide)]
    simp [hm, hbt, hfile, hus, hpk, FullRefreshMode, IncrementalMode, BackfillMode,
      SnapshotMode, TruncateMode]
  · intro hm
    have he : determineTypeModeCheck cfg =
        (if cfg.updateKey = "" ∨ cfg.primaryKey = [] then
          .error "must specify value for update_key and primary_key for backfill mode"
        else
          match cfg.rangeOpt with
          | none => .error "must specify range for backfill mode"
          | some r =>
            if (splitComma r).length ≠ 2 then
              .error "must specify valid range value for backfill mode separated by one comma"
            else .ok cfg) := by
      unfold determineTypeModeCheck
      rw [if_neg (show ¬ cfg.mode = "" by rw [hm]; decide)]
      simp [hm, FullRefreshMode, IncrementalMode, BackfillMode, SnapshotMode, TruncateMode]
    rw [he]
    constructor
    · rintro ⟨c, hc⟩
      by_cases h1 : cfg.updateKey = "" ∨ cfg.primaryKey = []
      · rw [if_pos h1] at hc
        simp at hc
      · rw [if_neg h1] at hc
        push_neg at h1
        rcases hr : cfg.rangeOpt with _ | r
        · rw [hr] at hc
          simp at hc
        · rw [hr] at hc
          simp only [] at hc
          by_cases h2 : (splitComma r).length ≠ 2
          · rw [if_pos h2] at hc
            simp at hc
          · exact ⟨h1.1, h1.2, r, rfl, by omega⟩
    · rintro ⟨hu, hp, r, hr, h2⟩
      rw [if_neg (show ¬(cfg.updateKey = "" ∨ cfg.primaryKey = []) by tauto), hr]
      simp only []
      rw [if_neg (show ¬((splitComma r).length ≠ 2) by omega)]
      exact ⟨cfg, rfl⟩

/-- C9: when the dataflow reports no stream columns, WriteToDb returns the
no-stream-columns error immediately, before any store operation runs. -/
theorem empty_columns_rejected (cfg : WCfg) (env : WEnv) (conn : WConn) (df : WDf)
    (h : df.columns = []) :
    writeToDb cfg env conn df = ⟨0, some "no stream columns detected", []⟩ := by
  unfold writeToDb
  rw [if_pos h]

/-- C10: in ReadFromDB select handling, mixing dash-excluded fields with
plain fields is rejected as a partial exclude, and an all-dash select that
excludes every available source column errors out. -/
theorem select_exclusion (sel cols : List String) (q : Char) :
    ((∃ f ∈ sel, startsWithDash f = true) → (∃ f ∈ sel, ¬ startsWithDash f = true) →
      ∃ e, resolveSelect sel cols q = .error e) ∧
    ((∀ f ∈ sel, startsWithDash f = true) → sel ≠ [] →
      (∀ c ∈ cols, ∃ f ∈ sel, equalFold c (removeChar q (trimDash f)) = true) →
      ∃ e, resolveSelect sel cols q = .error e) := by
  constructor
  · rintro ⟨f1, hf1, hs1⟩ ⟨f2, hf2, hs2⟩
    have hnil : ¬ sel = [] := by rintro rfl; simp at hf1
    have hex : sel.filter (fun f => startsWithDash f) ≠ [] :=
      List.ne_nil_of_mem (List.mem_filter.mpr ⟨hf1, hs1⟩)
    have hlt : (sel.filter fun f => startsWithDash f).length < sel.length := by
      refine List.length_filter_lt_length_iff_exists.mpr ⟨f2, hf2, ?_⟩
      simp [hs2]
    unfold resolveSelect
    rw [if_neg hnil]
    simp only []
    rw [if_pos hex, if_pos (by omega : (sel.filter fun f => startsWithDash f).length ≠ sel.length)]
    exact ⟨_, rfl⟩
  · intro hall hnil hcover
    have hexn : sel.filter (fun f => startsWithDash f) = sel :=
      List.filter_eq_self.mpr hall
    have hinc : cols.filter (fun c =>
        (sel.filter fun f => startsWithDash f).all fun exField =>
          ! equalFold c (removeChar q (trimDash exField))) = [] := by
      rw [hexn]
      rw [List.filter_eq_nil_iff]
      intro c hc hallc
      rcases hcover c hc with ⟨f, hf, heq⟩
      rw [List.all_eq_true] at hallc
      have hx := hallc f hf
      rw [heq] at hx
      simp at hx
    unfold resolveSelect
    rw [if_neg hnil]
    simp only []
    rw [if_pos (show (sel.filter fun f => startsWithDash f) ≠ [] by rw [hexn]; exact hnil)]
    rw [if_neg (show ¬((sel.filter fun f => startsWithDash f).length ≠ sel.length) by
      rw [hexn]; omega)]
    rw [hinc]
    rw [if_pos rfl]
    exact ⟨_, rfl⟩

theorem dropTable_not_in_stagingTrace (cfg : WCfg) (df : WDf) (tmp t : String) (n : Nat)
    (h : t ≠ tmp) :
    Ev.dropTable t ∉ stagingTrace cfg df tmp n := by
  unfold stagingTrace
  repeat' split
  all_goals simp [h]

/-- C8 counterexample: a successful snapshot run against an existing final
table never drops the final table, contradicting the claim that snapshot
behaves as full-refresh (drop and recreate). -/
theorem snapshot_claim_counterexample :
    (writeToDb { cfgBase with mode := SnapshotMode } envBase connOK dfBase).err = none ∧
    Ev.insertFromTemp "public.tbl_tmp" "public.tbl"
      ∈ (writeToDb { cfgBase with mode := SnapshotMode } envBase connOK dfBase).trace ∧
    Ev.dropTable "public.tbl"
      ∉ (writeToDb { cfgBase with mode := SnapshotMode } envBase connOK dfBase).trace := by
  refine ⟨rfl, by decide, by decide⟩

/-- C8 amended: under snapshot mode the staged rows are inserted directly
from the temp table into the final table (created only when missing); the
final table is never dropped; DetermineType forces the load-timestamp
metadata column. -/
theorem snapshot_inserts_without_dropping
    (cfg : WCfg) (env : WEnv) (conn : WConn) (df : WDf) (n : Nat) (tmp : String)
    (created a b : Bool)
    (hcols : ¬ df.columns = [])
    (htmp : tmpNameOf cfg conn = some tmp)
    (hne : tmp ≠ cfg.targetObject)
    (hr : ReachesMerge cfg env conn df n)
    (hn : 0 < n)
    (hdrop : conn.dropFinalOk = true)
    (hcr : conn.createFinalRes = some created)
    (hpf : conn.parseFinal2Ok = true)
    (haddm : conn.addMissingRes = some a)
    (hpull : conn.pullCols1Ok = true)
    (hpullo : conn.pullColsOptOk = true)
    (hopt : conn.optimizeRes = some b)
    (hins : conn.insertOk = true)
    (hpost : cfg.postSQL = "" ∨ (conn.postSQLTextOk = true ∧ conn.postFormatOk = true ∧ conn.postExecOk = true))
    (hcommit : conn.commitOk = true)
    (hm : cfg.mode = SnapshotMode) :
    mergeOps (writeToDb cfg env conn df).trace = [.insertFromTemp tmp cfg.targetObject] ∧
    Ev.dropTable cfg.targetObject ∉ (writeToDb cfg env conn df).trace ∧
    (∀ d : DCfg, d.mode = SnapshotMode →
      determineTypeModeCheck d = .ok { d with metadataLoadedAt := true }) := by
  have hn0 : ¬ n = 0 := by omega
  have hmode : ¬ cfg.mode = "" := by rw [hm]; decide
  have hmd : mergeDispatch { cfg with tableTmp := tmp } conn n
      = ([.insertFromTemp tmp cfg.targetObject], none, n) := by
    unfold mergeDispatch
    simp [hm, hins, hn0, SnapshotMode, IncrementalMode, FullRefreshMode, SwapModeLiteral]
  refine ⟨?_, ?_, ?_⟩
  · refine writeToDb_mergeOps cfg env conn df n tmp created a b _ n hcols htmp hmode hr hdrop
      hcr hpf haddm hpull hpullo hopt hmd ?_ hpost hcommit
    intro e he
    simp only [List.mem_singleton] at he
    subst he
    rfl
  · rcases hsa : schemaAdjust { cfg with tableTmp := tmp } conn created with ⟨evsA, errA⟩
    have hok := schemaAdjust_ok { cfg with tableTmp := tmp } conn created a b haddm hpull hpullo hopt
    rw [hsa] at hok
    simp only [] at hok
    subst hok
    have hAev := schemaAdjust_events { cfg with tableTmp := tmp } conn created
    rw [hsa] at hAev
    simp only [] at hAev
    have hps := postSQLPhase_ok { cfg with tableTmp := tmp } conn (by simpa using hpost)
    rw [writeToDb_reaches_merge cfg env conn df n tmp hcols htmp hmode hr]
    rw [mergePhase_success _ conn df n created evsA _ _ n (fun hFR => hdrop) hcr hpf hsa hmd hps
      hcommit]
    intro hmem
    simp only [WRes.trace] at hmem
    simp [stagingTrace, hm, SnapshotMode, FullRefreshMode,
      (Ne.symm hne : cfg.targetObject ≠ tmp)] at hmem
    rcases hAev _ hmem with h | h <;> simp at h
  · intro d hd
    unfold determineTypeModeCheck
    rw [if_neg (show ¬ d.mode = "" by rw [hd]; decide)]
    simp [hd, SnapshotMode, FullRefreshMode, IncrementalMode, BackfillMode, TruncateMode]

theorem reaches_connOK : ReachesMerge cfgBase envBase connOK dfBase 3 :=
  ⟨rfl, rfl, Or.inl rfl, rfl, rfl, rfl, rfl,
   fun h => absurd h (by decide), Or.inl rfl,
   fun h => absurd h (by decide), fun _ _ h => absurd h (by decide), rfl⟩

theorem reaches_connCk : ReachesMerge cfgBase envBase connCk dfBase 3 :=
  ⟨rfl, rfl, Or.inl rfl, rfl, rfl, rfl, rfl,
   fun h => absurd h (by decide), Or.inl rfl,
   fun h => absurd h (by decide), fun _ _ _ => rfl, rfl⟩

theorem reaches_connUpFail : ReachesMerge cfgBase envBase connUpFail dfBase 3 :=
  ⟨rfl, rfl, Or.inl rfl, rfl, rfl, rfl, rfl,
   fun h => absurd h (by decide), Or.inl rfl,
   fun h => absurd h (by decide), fun _ _ h => absurd h (by decide), rfl⟩

theorem reaches_cfgSnap : ReachesMerge cfgSnap envBase connOK dfBase 3 :=
  ⟨rfl, rfl, Or.inl rfl, rfl, rfl, rfl, rfl,
   fun h => absurd h (by decide), Or.inl rfl,
   fun h => absurd h (by decide), fun _ _ h => absurd h (by decide), rfl⟩

theorem count_mismatch_witness :
    (writeToDb cfgBase envBase connMismatch dfBase).err ≠ none ∧
    Ev.beginTx true ∉ (writeToDb cfgBase envBase connMismatch dfBase).trace ∧
    ∀ e ∈ (writeToDb cfgBase envBase connMismatch dfBase).trace,
      touchesFinal cfgBase.targetObject e = false :=
  count_mismatch_aborts_before_merge cfgBase envBase connMismatch dfBase 3 "public.tbl_tmp"
    (by decide) (by decide) (by decide) (by decide)

theorem merge_strategy_witness :
    mergeOps (writeToDb cfgBase envBase connOK dfBase).trace
      = [Ev.upsert "public.tbl_tmp" "public.tbl" ["id"]] :=
  (merge_strategy_by_mode cfgBase envBase connOK dfBase 3 "public.tbl_tmp" false false false 3
    (by decide) (by decide) reaches_connOK (by decide) (by decide) (by decide) (by decide)
    (by decide) (by decide) (by decide) (by decide) (by decide) (by decide) (by decide)
    (Or.inl (by decide)) (by decide)).2.2.1 (Or.inl (by decide)) (by decide)

theorem zero_staged_witness :
    (writeToDb cfgBase envBase connZero dfZero).err = none ∧
    Ev.beginTx true ∉ (writeToDb cfgBase envBase connZero dfZero).trace ∧
    ∀ e ∈ (writeToDb cfgBase envBase connZero dfZero).trace,
      touchesFinal cfgBase.targetObject e = false :=
  zero_staged_skips_merge cfgBase envBase connZero dfZero "public.tbl_tmp"
    (by decide) (by decide) (by decide) (by decide) (by decide) (Or.inl (by decide))
    (by decide) (by decide) (by decide) (by decide) (by decide) (Or.inl (by decide)) (by decide)

theorem checksum_witness :
    Ev.beginTx true ∈ (writeToDb cfgBase envBase connCk dfBase).trace :=
  (checksum_bounded_and_nonfatal cfgBase envBase connCk dfBase).2.1 3 "public.tbl_tmp"
    (by decide) (by decide) (by decide) reaches_connCk (by decide) (by decide)

theorem merge_failure_witness :
    (writeToDb cfgBase envBase connUpFail dfBase).err ≠ none ∧
    Ev.commitTx true ∉ (writeToDb cfgBase envBase connUpFail dfBase).trace ∧
    Ev.rollbackTx ∈ (writeToDb cfgBase envBase connUpFail dfBase).trace ∧
    ((writeToDb cfgBase envBase connUpFail dfBase).trace.count (Ev.dropTable "public.tbl_tmp")) = 1 :=
  merge_failure_rolls_back cfgBase envBase connUpFail dfBase 3 "public.tbl_tmp" false false false
    (by decide) (by decide) (by decide) reaches_connUpFail (by decide) (by decide) (by decide)
    (by decide) (by decide) (by decide) (by decide) (by decide)
    (Or.inr (Or.inr (Or.inr (Or.inl ⟨Or.inl (by decide), by decide, by decide⟩))))

theorem tmp_naming_witness :
    (deriveTmpTable parsedLong true true "x9").name
      = (if parsedLong.name.length > 24 then strTake parsedLong.name 24 else parsedLong.name)
        ++ (if true then "_TMP" else "_tmp")
        ++ (if true then strToUpper "x9" else strToLower "x9") ∧
    tmpNameOf cfgDerive connOracle = some (deriveTmpTable parsedLong true true "x9").fullName :=
  ⟨(tmp_table_naming parsedLong true true "x9").2.1 (by decide),
   (tmp_table_naming parsedLong true true "x9").2.2.1 cfgDerive connOracle (by decide)
     (by decide) (by decide) (by decide) (by decide)⟩

theorem mode_validation_witness :
    (∃ c, determineTypeModeCheck dcfgBackfill = .ok c) ∧
    (∃ e, determineTypeModeCheck
      { dcfgBackfill with mode := "incremental", updateKey := "", primaryKey := [] } = .error e) := by
  constructor
  · exact ((mode_validation dcfgBackfill).2.2.2 (by decide)).mpr
      ⟨by decide, by decide, "a,b", by decide, by decide⟩
  · exact (mode_validation _).2.2.1 (by decide) (by decide) (by decide) (by decide) (by decide)

theorem snapshot_witness :
    mergeOps (writeToDb cfgSnap envBase connOK dfBase).trace
      = [Ev.insertFromTemp "public.tbl_tmp" "public.tbl"] :=
  (snapshot_inserts_without_dropping cfgSnap envBase connOK dfBase 3 "public.tbl_tmp"
    false false false
    (by decide) (by decide) (by decide) reaches_cfgSnap (by decide) (by decide) (by decide)
    (by decide) (by decide) (by decide) (by decide) (by decide) (by decide)
    (Or.inl (by decide)) (by decide) (by decide)).1

theorem empty_columns_witness :
    writeToDb cfgBase envBase connOK dfEmpty = ⟨0, some "no stream columns detected", []⟩ :=
  empty_columns_rejected cfgBase envBase connOK dfEmpty (by decide)

theorem select_exclusion_witness :
    (∃ e, resolveSelect ["-a", "b"] ["a", "b", "c"] (Char.ofNat 34) = .error e) ∧
    (∃ e, resolveSelect ["-a", "-b", "-c"] ["a", "b", "c"] (Char.ofNat 34) = .error e) := by
  constructor
  · exact (select_exclusion _ _ _).1 ⟨"-a", by decide, by decide⟩ ⟨"b", by decide, by decide⟩
  · exact (select_exclusion _ _ _).2 (by decide) (by decide) (by decide)

end Sling









